import Mathlib

set_option maxRecDepth 100000

/-
Verification of the agentcompany orchestration core.

This file is a shallow embedding, in Lean 4, of the parts of the code base
that the verified properties talk about:

  * `src/agentcompany/core/task.py`            -- Task data model and mutators
  * `src/agent_company_ai/core/cost_tracker.py` -- pricing table, cost estimation,
                                                   recording, summary roll-ups
  * `src/agent_company_ai/core/message_bus.py`  -- bus history and `get_history`
  * `src/agent_company_ai/core/company.py`      -- delegation resolution,
                                                   `run_goal` start-up and cycle loop
  * `src/agent_company_ai/core/agent.py`        -- the think loop and
                                                   `_execute_tool` (report / delegate)

Modelling conventions:
  * Python `datetime.now(...)` timestamps are abstracted to `Nat` ticks passed
    in by the caller; no verified property mentions time values.
  * Python floats are modelled as exact rationals (`ℚ`); `round(x, 6)` is
    modelled as decimal rounding half-to-even on the exact value (Python's
    rounding mode), ignoring binary floating-point representation error.
  * Python dicts that are used in insertion order (the pricing table, the
    agents registry) are modelled as association lists in the same order;
    dict keys are unique, which appears as a `Nodup` hypothesis where needed.
  * uuid generation is abstracted: freshly generated ids are parameters.
  * Database writes, file exports and event emission are side effects on
    collaborators; where a property mentions them (the goals table in
    `run_goal`) they are modelled as explicit state, otherwise they are
    dropped (they never influence the control flow being verified).
  * The LLM provider is modelled as an oracle `Nat → LLMStep` giving the
    response of each iteration of the think loop.
-/

namespace AgentCompany

/-! ## Task (`src/agentcompany/core/task.py`)

`agent_company_ai.core.agent` imports `Task` from `agent_company_ai.core.task`,
which is the same module as the packaged `agentcompany/core/task.py` present in
the tree; the model below is read off that file.

The Python dataclass field `subtasks: list[Task]` is kept outside the
structure (Lean structures are non-recursive); where the code appends a
subtask (`add_subtask`) the model threads the created subtask separately.
`artifacts` entries are modelled by the fields the code writes. -/

inductive TaskStatus
  | pending
  | assigned
  | in_progress
  | review
  | done
  | failed
  deriving BEq, DecidableEq, Repr

structure Artifact where
  name : String
  artifact_type : String
  content : Option String
  deriving DecidableEq, Repr

structure Task where
  id : String
  description : String
  assignee : Option String
  status : TaskStatus
  priority : Int
  parent_id : Option String
  result : Option String
  artifacts : List Artifact
  created_at : Nat
  updated_at : Nat
  deriving DecidableEq, Repr

/-- `Task.create`: status is ASSIGNED when an assignee is supplied, else PENDING. -/
def Task.create (id description : String) (assignee : Option String)
    (priority : Int) (parent_id : Option String) (now : Nat) : Task :=
  { id := id
    description := description
    assignee := assignee
    status := if assignee.isSome then .assigned else .pending
    priority := priority
    parent_id := parent_id
    result := none
    artifacts := []
    created_at := now
    updated_at := now }

def Task.assign (t : Task) (agent_name : String) (now : Nat) : Task :=
  { t with assignee := some agent_name, status := .assigned, updated_at := now }

def Task.start (t : Task) (now : Nat) : Task :=
  { t with status := .in_progress, updated_at := now }

def Task.complete (t : Task) (result : Option String) (now : Nat) : Task :=
  { t with status := .done, result := result, updated_at := now }

def Task.fail (t : Task) (reason : Option String) (now : Nat) : Task :=
  { t with status := .failed, result := reason, updated_at := now }

/-- `self.status in (TaskStatus.DONE, TaskStatus.FAILED)` -/
def Task.is_terminal (t : Task) : Bool :=
  t.status == .done || t.status == .failed

/-- `add_subtask` creates a child task with `parent_id = self.id` and no
assignee; the fresh uuid is a parameter.  (The Python method also appends the
child to `self.subtasks`; the caller of this model threads the child.) -/
def Task.add_subtask (t : Task) (sub_id description : String) (now : Nat) : Task :=
  Task.create sub_id description none 0 (some t.id) now

/-- One call of a Task mutator, for reasoning about operation sequences. -/
inductive TaskOp
  | assign (agent_name : String) (now : Nat)
  | start (now : Nat)
  | complete (result : Option String) (now : Nat)
  | fail (reason : Option String) (now : Nat)
  deriving DecidableEq, Repr

def Task.apply_op (t : Task) : TaskOp → Task
  | .assign a now => t.assign a now
  | .start now => t.start now
  | .complete r now => t.complete r now
  | .fail r now => t.fail r now

def Task.run_ops (t : Task) (ops : List TaskOp) : Task :=
  ops.foldl Task.apply_op t

/-- Whether the operation is one of `complete`/`fail`. -/
def TaskOp.is_completing : TaskOp → Bool
  | .complete _ _ => true
  | .fail _ _ => true
  | _ => false

lemma run_ops_nonterminal (ops : List TaskOp) :
    ∀ t : Task, t.is_terminal = false →
      (∀ op ∈ ops, op.is_completing = false) →
      (t.run_ops ops).is_terminal = false := by
  induction ops with
  | nil => intro t ht _; simpa [Task.run_ops] using ht
  | cons op rest ih =>
    intro t ht hops
    have hop : op.is_completing = false := hops op (by simp)
    have hrest : ∀ o ∈ rest, o.is_completing = false := fun o ho => hops o (by simp [ho])
    have hstep : (t.apply_op op).is_terminal = false := by
      cases op <;> simp_all [Task.apply_op, TaskOp.is_completing,
        Task.assign, Task.start, Task.is_terminal] <;> decide
    simpa [Task.run_ops] using ih (t.apply_op op) hstep hrest

/-! ## CostTracker (`src/agent_company_ai/core/cost_tracker.py`)

Costs are exact rationals.  `DEFAULT_PRICING` is the module-level dict in its
insertion order (per 1M tokens, USD).  Python's `round(x, 6)` rounds the
decimal value half-to-even; `round6` below does the same on the exact
rational (binary floating-point representation error is abstracted away). -/

def DEFAULT_PRICING : List (String × ℚ × ℚ) :=
  [("claude-sonnet-4-5-20250929", 3.00, 15.00),
   ("claude-opus-4-6", 15.00, 75.00),
   ("claude-haiku-4-5-20251001", 0.80, 4.00),
   ("gpt-4o", 2.50, 10.00),
   ("gpt-4o-mini", 0.15, 0.60),
   ("gpt-4-turbo", 10.00, 30.00),
   ("gpt-3.5-turbo", 0.50, 1.50)]

/-- Python's `model.startswith(key)`: `key` is a prefix of the character
sequence of `model`. -/
def str_startswith (s pre : String) : Bool := pre.data.isPrefixOf s.data

/-- Python dict lookup `self._pricing.get(model)` on the association list. -/
def dict_get (model : String) : List (String × ℚ × ℚ) → Option (ℚ × ℚ)
  | [] => none
  | kv :: rest => if kv.1 = model then some kv.2 else dict_get model rest

/-- The Python loop `for key, p in self._pricing.items(): if
model.startswith(key): pricing = p; break` — the FIRST entry in insertion
order whose key the model name extends. -/
def first_startswith_entry (model : String) : List (String × ℚ × ℚ) → Option (ℚ × ℚ)
  | [] => none
  | kv :: rest =>
    if str_startswith model kv.1 then some kv.2 else first_startswith_entry model rest

/-- `CostTracker.estimate_cost`: exact dict lookup first; on miss, the first
insertion-order entry whose key is extended by the model name; if neither
finds an entry the cost is `0.0`.  Total function: never raises. -/
def estimate_cost (pricing : List (String × ℚ × ℚ)) (model : String)
    (input_tokens output_tokens : Nat) : ℚ :=
  match dict_get model pricing with
  | some p => (input_tokens * p.1 + output_tokens * p.2) / 1000000
  | none =>
    match first_startswith_entry model pricing with
    | some p => (input_tokens * p.1 + output_tokens * p.2) / 1000000
    | none => 0

/-- Among the entries whose key the model name extends, one with a key of
maximal length. -/
def longest_startswith_entry (model : String) : List (String × ℚ × ℚ) → Option (String × ℚ × ℚ)
  | [] => none
  | kv :: rest =>
    match longest_startswith_entry model rest with
    | some best =>
      if str_startswith model kv.1 ∧ best.1.length < kv.1.length then some kv
      else some best
    | none => if str_startswith model kv.1 then some kv else none

/-- Selection the spec describes: among the table keys of which the model name
is an extension, pick the one with the longest key ("longest-prefix match").
Written from the spec's words, to compare against `estimate_cost`. -/
def estimate_cost_longest_key (pricing : List (String × ℚ × ℚ)) (model : String)
    (input_tokens output_tokens : Nat) : ℚ :=
  match dict_get model pricing with
  | some p => (input_tokens * p.1 + output_tokens * p.2) / 1000000
  | none =>
    match longest_startswith_entry model pricing with
    | some kv => (input_tokens * kv.2.1 + output_tokens * kv.2.2) / 1000000
    | none => 0

/-- Floor of a rational. -/
def floorQ (q : ℚ) : ℤ := ⌊q⌋

/-- Decimal rounding half-to-even of a rational to an integer (Python's
`round` tie-breaking). -/
def roundHalfEven (q : ℚ) : ℤ :=
  let f := floorQ q
  let frac := q - (f : ℚ)
  if frac < 1 / 2 then f
  else if 1 / 2 < frac then f + 1
  else if f % 2 = 0 then f else f + 1

/-- Python's `round(x, 6)` on the exact value. -/
def round6 (q : ℚ) : ℚ := (roundHalfEven (q * 1000000) : ℚ) / 1000000

structure UsageRecord where
  agent : String
  model : String
  input_tokens : Nat
  output_tokens : Nat
  cost_usd : ℚ
  deriving DecidableEq, Repr

/-- The mutable fields of `CostTracker` (the lock is irrelevant in the
sequential model; `set_pricing` is not exercised by any claim but pricing is
carried as state because `estimate_cost` reads it). -/
structure CostTracker where
  records : List UsageRecord
  total_input_tokens : Nat
  total_output_tokens : Nat
  total_cost_usd : ℚ
  pricing : List (String × ℚ × ℚ)
  deriving Repr

def CostTracker.init : CostTracker :=
  { records := []
    total_input_tokens := 0
    total_output_tokens := 0
    total_cost_usd := 0
    pricing := DEFAULT_PRICING }

/-- `CostTracker.record`: append a usage record and bump the running totals. -/
def CostTracker.record (ct : CostTracker) (agent model : String)
    (input_tokens output_tokens : Nat) : CostTracker :=
  let cost := estimate_cost ct.pricing model input_tokens output_tokens
  { ct with
    records := ct.records ++
      [{ agent := agent, model := model, input_tokens := input_tokens,
         output_tokens := output_tokens, cost_usd := cost }]
    total_input_tokens := ct.total_input_tokens + input_tokens
    total_output_tokens := ct.total_output_tokens + output_tokens
    total_cost_usd := ct.total_cost_usd + cost }

def sum_costs (rs : List UsageRecord) : ℚ := (rs.map (fun r => r.cost_usd)).sum

/-- `d[k] = d.get(k, 0.0) + c` on an association list kept in key
first-insertion order, as a Python dict is. -/
def dict_add : List (String × ℚ) → String → ℚ → List (String × ℚ)
  | [], k, c => [(k, c)]
  | kv :: rest, k, c =>
    if kv.1 = k then (kv.1, kv.2 + c) :: rest else kv :: dict_add rest k c

/-- The `summary()` accumulation loop `for r in self._records:
by_agent[r.agent] = by_agent.get(r.agent, 0.0) + r.cost_usd` (and likewise by
model), before the final per-value rounding. -/
def accum_by (rs : List UsageRecord) (key : UsageRecord → String) : List (String × ℚ) :=
  rs.foldl (fun acc r => dict_add acc (key r) r.cost_usd) []

/-- `summary()["total_cost_usd"]`: the running total rounded to 6 decimals. -/
def CostTracker.summary_total_cost_usd (ct : CostTracker) : ℚ :=
  round6 ct.total_cost_usd

/-- `summary()["by_agent"]`: one entry per distinct agent, each value rounded
to 6 decimals.  (Python sorts the keys for display; the sums verified below
are order-independent, so the model keeps dict insertion order.) -/
def CostTracker.by_agent (ct : CostTracker) : List (String × ℚ) :=
  (accum_by ct.records (fun r => r.agent)).map (fun kv => (kv.1, round6 kv.2))

/-- `summary()["by_model"]`, as `by_agent`. -/
def CostTracker.by_model (ct : CostTracker) : List (String × ℚ) :=
  (accum_by ct.records (fun r => r.model)).map (fun kv => (kv.1, round6 kv.2))

/-- The same roll-up before the final `round(v, 6)` — used below to state
what does reconcile exactly. -/
def CostTracker.by_agent_exact (ct : CostTracker) : List (String × ℚ) :=
  accum_by ct.records (fun r => r.agent)

def CostTracker.by_model_exact (ct : CostTracker) : List (String × ℚ) :=
  accum_by ct.records (fun r => r.model)

/-- A sequence of `record` calls: (agent, model, input_tokens, output_tokens). -/
def CostTracker.record_all (ct : CostTracker)
    (calls : List (String × String × Nat × Nat)) : CostTracker :=
  calls.foldl (fun ct c => ct.record c.1 c.2.1 c.2.2.1 c.2.2.2) ct

/-! ## MessageBus (`src/agent_company_ai/core/message_bus.py`)

Only the parts delegation resolution reads: the append-only history and
`get_history`.  A message's `content` is a JSON string in the code; the model
keeps the two fields `_handle_delegation` reads after `json.loads`
(`data.get("task_id")` and `data["to_role"]`), plus a case for content that
fails to parse. -/

inductive MsgContent
  /-- content that `json.loads` parses, with its optional `task_id` and
  `to_role` fields (absent field = `none`). -/
  | json (task_id : Option String) (to_role : Option String)
  /-- content on which `json.loads` raises `JSONDecodeError`. -/
  | not_json (raw : String)
  deriving DecidableEq, Repr

structure BusMsg where
  topic : String
  content : MsgContent
  deriving DecidableEq, Repr

/-- `MessageBus.get_history(limit, topic)`: filter by topic first, then take
the last `limit` entries (`messages[-limit:]`; for `limit = 0` Python's
`[-0:]` is the whole list). -/
def get_history (history : List BusMsg) (limit : Nat) (topic : Option String) : List BusMsg :=
  let messages :=
    match topic with
    | some t => history.filter (fun m => m.topic == t)
    | none => history
  if limit = 0 then messages else messages.drop (messages.length - limit)

/-! ## Company (`src/agent_company_ai/core/company.py`) -/

/-- A hired agent as delegation resolution sees it: its name and its role
name (`agent.role.name`), in the insertion order of the `self.agents` dict. -/
structure AgentRec where
  name : String
  role : String
  deriving DecidableEq, Repr

/-- `Company.get_agent_by_role`: the first agent (in dict order) whose role
name matches. -/
def get_agent_by_role (agents : List AgentRec) (role_name : String) : Option AgentRec :=
  match agents with
  | [] => none
  | a :: rest => if a.role = role_name then some a else get_agent_by_role rest role_name

/-- The scan of `Company._handle_delegation` over the reversed history slice:
for each message, skip it when it does not parse (`JSONDecodeError`), when its
`task_id` differs from the subtask's id, when it has no `to_role` key
(`KeyError`), or when no live agent has the target role (`if agent:` falls
through); on the first full match assign the subtask to the agent (the board
registration, persistence and the recursive `_run_task` are collaborator
effects carried no further).  If the scan is exhausted the subtask fails. -/
def delegate_scan (agents : List AgentRec) (sub : Task) (now : Nat) :
    List BusMsg → Task × Option String
  | [] => (sub.fail (some "No agent available for delegation.") now, none)
  | m :: rest =>
    match m.content with
    | .json task_id to_role =>
      if task_id = some sub.id then
        match to_role with
        | some r =>
          match get_agent_by_role agents r with
          | some a => (sub.assign a.name now, some a.name)
          | none => delegate_scan agents sub now rest
        | none => delegate_scan agents sub now rest
      else delegate_scan agents sub now rest
    | .not_json _ => delegate_scan agents sub now rest

/-- `Company._handle_delegation`: walk backward (`reversed`) through the last
20 `task.delegate` messages of the bus history.  Returns the updated subtask
and the name of the agent it was assigned to (`none` = failed). -/
def handle_delegation (history : List BusMsg) (agents : List AgentRec)
    (sub : Task) (now : Nat) : Task × Option String :=
  delegate_scan agents sub now ((get_history history 20 (some "task.delegate")).reverse)

/-- A delegation message that names this subtask id (what
`data.get("task_id") == subtask.id` accepts). -/
def matches_id (sub_id : String) (m : BusMsg) : Bool :=
  match m.content with
  | .json task_id _ => task_id = some sub_id
  | .not_json _ => false

/-- The agent the scan would pick from this message: the first live agent
whose role is the message's `to_role` (if the message parses and has one). -/
def delegate_target (agents : List AgentRec) (m : BusMsg) : Option String :=
  match m.content with
  | .json _ (some r) => (get_agent_by_role agents r).map (fun a => a.name)
  | _ => none

/-- A message the scan accepts: it names the subtask id and its target role
resolves to a live agent. -/
def delegate_viable (agents : List AgentRec) (sub_id : String) (m : BusMsg) : Bool :=
  matches_id sub_id m && (delegate_target agents m).isSome

/-! ### `Company.run_goal`

The model splits `run_goal` into the part the claims are about:

* `run_goal_start` — everything up to and including the "find the CEO" check
  (mutation of `_running`/`_stop_requested`, the INSERT into the goals table,
  and the `ValueError` when no hired agent has role "ceo");
* `goal_cycles` — the `for cycle in range(limits.max_cycles)` loop, with the
  LLM-dependent outcomes of each cycle supplied by an environment oracle.
-/

/-- The company state `run_goal` touches before any task is created:
the `_running` / `_stop_requested` flags, the persisted `goals` rows
(id, description, status) and the task board. -/
structure CompanyState where
  running : Bool
  stop_requested : Bool
  db_goals : List (String × String × String)
  board : List Task
  deriving Repr

/-- `run_goal` up to the CEO check: set `_running`, clear `_stop_requested`,
INSERT the goal row with status `active`, then look up a CEO.  Returns the
state reached and `some message` when `ValueError(message)` is raised there.
The fresh `goal_id` (a uuid in the code) is a parameter. -/
def run_goal_start (agents : List AgentRec) (st : CompanyState)
    (goal goal_id : String) : CompanyState × Option String :=
  let st := { st with running := true, stop_requested := false }
  let st := { st with db_goals := st.db_goals ++ [(goal_id, goal, "active")] }
  match get_agent_by_role agents "ceo" with
  | none => (st, some "No CEO agent found. Hire a CEO first: agent-company-ai hire ceo")
  | some _ => (st, none)

/-- The final status written to the goals table by `run_goal`. -/
inductive GoalStatus
  | completed
  | cancelled
  | failed
  deriving DecidableEq, Repr

/-- What the environment (LLM calls, the clock, the task board, the user's
`request_stop` button) does during one cycle of the `run_goal` loop. -/
structure CycleEnv where
  /-- `request_stop()` has been called by the time of this cycle's top-of-cycle
  check (and was not already pending at the previous check). -/
  stop_before_top : Bool
  /-- the wall-clock check at the top of this cycle fires. -/
  time_limit : Bool
  /-- the task-count check at the top of this cycle fires. -/
  task_limit : Bool
  /-- the cost check at the top of this cycle fires. -/
  cost_limit : Bool
  /-- `request_stop()` is called while this cycle's waves execute
  (observed by a top-of-wave check, which only breaks the wave loop). -/
  stop_during_waves : Bool
  /-- this cycle's CEO review task ends with status DONE. -/
  review_done : Bool
  deriving DecidableEq, Repr

/-- The `for cycle in range(limits.max_cycles)` loop of `run_goal`, from the
top of cycle `c` with `fuel` cycles of the budget left (so `max_cycles =
c + fuel`; `fuel = 0` only when the range is empty) and the current value of
`_stop_requested`.  Per cycle: the stop/time/task/cost checks break with
`cancelled` / `failed`; otherwise the plan task runs, the wave loop runs (a
stop request arriving there — `stop_during_waves` — only breaks the wave
loop), the review task runs, and a DONE review breaks with `completed`; a
non-DONE review on the last cycle (`fuel = 0` after this one) sets `failed`;
otherwise the next cycle starts with the (possibly newly set) stop flag.
The initial `final_status = "completed"` is what a fuel-exhausted loop
reports. -/
def goal_cycles (env : Nat → CycleEnv) : Nat → Nat → Bool → GoalStatus
  | 0, _, _ => .completed
  | fuel + 1, c, stop =>
    let stop_top := stop || (env c).stop_before_top
    if stop_top then .cancelled
    else if (env c).time_limit then .failed
    else if (env c).task_limit then .failed
    else if (env c).cost_limit then .failed
    else
      let stop_after_waves := stop_top || (env c).stop_during_waves
      if (env c).review_done then .completed
      else if fuel = 0 then .failed
      else goal_cycles env fuel (c + 1) stop_after_waves

/-- The whole loop: `max_cycles` budget, cycle 0, stop flag freshly cleared
by `run_goal_start`. -/
def run_goal_loop (env : Nat → CycleEnv) (max_cycles : Nat) : GoalStatus :=
  goal_cycles env max_cycles 0 false

/-! ## Agent think loop (`src/agent_company_ai/core/agent.py`)

`Agent.think` drives one task through at most `max_iterations` LLM calls.
The LLM provider is an oracle `script : Nat → LLMStep` giving iteration `i`'s
response (`.err` = the provider raised).  A response's `content` is `""` when
the Python value is `None`/empty (the code only ever tests its truthiness and
length).  Tool calls are modelled by the three cases `_execute_tool`
distinguishes; a `.other` call carries the result string the registry
produced (including the `Error: Unknown tool '...'` and `Tool error: ...`
strings — none of them touch the task).  Cost tracking, DB writes, bus sends
and file exports are collaborator effects that do not feed back into the
loop; artifact registration is kept because it writes `task.artifacts`. -/

/-- Python's `str.strip()` (on the ASCII whitespace the deliverables use). -/
def str_strip (s : String) : String :=
  ⟨((s.data.dropWhile Char.isWhitespace).reverse.dropWhile Char.isWhitespace).reverse⟩

/-- Python's `x or default` for an optional/empty string. -/
def py_or (x : Option String) (default : String) : String :=
  match x with
  | some s => if s = "" then default else s
  | none => default

/-- `Agent._register_artifact`: append to `task.artifacts` (the DB insert and
the generated artifact id are collaborator effects). -/
def Task.register_artifact (t : Task) (name artifact_type : String)
    (content : Option String) : Task :=
  { t with artifacts := t.artifacts ++ [{ name := name, artifact_type := artifact_type,
                                          content := content }] }

inductive ToolCall
  /-- `report_result` with its `result` / `status` arguments
  (`arguments.get(...)` yields `none` when absent). -/
  | report_result (result : Option String) (status : Option String)
  /-- `delegate_task`; `sub_id` is the uuid `add_subtask` generates. -/
  | delegate_task (to_role : String) (description : String) (sub_id : String)
  /-- any registry tool call, carrying the result string it produced. -/
  | other (name : String) (output : String)
  deriving DecidableEq, Repr

/-- The think-loop state threaded through tool execution. -/
structure ExecState where
  task : Task
  /-- `self._result_rejections` -/
  rejections : Nat
  /-- subtasks appended by `delegate_task` (`task.subtasks` in the code). -/
  subtasks : List Task
  deriving DecidableEq, Repr

/-- The substitution step of `_execute_tool`: a short submitted result is
silently replaced by the longer tracked assistant text
(`_MIN_DELIVERABLE_LEN = 300`). -/
def substitute_result (result assistant_text : String) : String :=
  if (str_strip result).length < 300 ∧
      (str_strip result).length < (str_strip assistant_text).length then
    assistant_text
  else result

/-- The text of the rejection message after the interpolated length. -/
def rejection_message_tail : String :=
  " characters — " ++
  "that is a plan/intention, not a completed deliverable.\n\n" ++
  "STOP. Do NOT call report_result yet. Instead:\n" ++
  "1. Think through the analysis in detail\n" ++
  "2. If you have web_search available, use it to gather data\n" ++
  "3. Write out the FULL deliverable with specific data, " ++
  "numbers, analysis, and recommendations\n" ++
  "4. ONLY THEN call report_result with the complete text\n\n" ++
  "Your report_result must contain the entire finished work " ++
  "product — at minimum several detailed paragraphs with " ++
  "specific findings and actionable recommendations."

/-- The corrective tool-result `_execute_tool` returns when it rejects a
short `report_result` (`n` = the stripped length it reports). -/
def rejection_message (n : Nat) : String :=
  "REJECTED: Your submission is only " ++ toString n ++ rejection_message_tail

/-- `Agent._execute_tool`: returns the tool-result string and the new state.
`report_result`: substitute, then reject when the status is `done`, the
result is still shorter than 300 stripped characters and fewer than
`_MAX_REJECTIONS = 2` rejections have been issued; otherwise `done` completes
the task (registering a result artifact) and any other status fails it. -/
def execute_tool (tc : ToolCall) (assistant_text : String) (st : ExecState)
    (now : Nat) : String × ExecState :=
  match tc with
  | .report_result result0 status0 =>
    let status := status0.getD "done"
    let result := substitute_result (result0.getD "") assistant_text
    if status = "done" ∧ (str_strip result).length < 300 ∧ st.rejections < 2 then
      (rejection_message (str_strip result).length, { st with rejections := st.rejections + 1 })
    else if status = "done" then
      ("Result reported: " ++ status,
       { st with task := (st.task.complete (some result) now).register_artifact
                           "result" "text" (some result) })
    else
      ("Result reported: " ++ status,
       { st with task := st.task.fail (some result) now })
  | .delegate_task to_role description sub_id =>
    ("Task delegated to " ++ to_role ++ ": " ++ description ++ " (subtask " ++ sub_id ++ ")",
     { st with subtasks := st.subtasks ++ [st.task.add_subtask sub_id description now] })
  | .other _ output => (output, st)

/-- Three successive `report_result(status="done")` calls with the same
arguments and the same tracked assistant text, as the rejection gate sees
them within one `think` run. -/
def report_seq (result0 : Option String) (assistant : String) (st : ExecState)
    (n1 n2 n3 : Nat) : (String × ExecState) × (String × ExecState) × (String × ExecState) :=
  let r1 := execute_tool (.report_result result0 (some "done")) assistant st n1
  let r2 := execute_tool (.report_result result0 (some "done")) assistant r1.2 n2
  let r3 := execute_tool (.report_result result0 (some "done")) assistant r2.2 n3
  (r1, r2, r3)

/-- One LLM call of the think loop: a response, or a raised exception. -/
inductive LLMStep
  | ok (content : String) (tool_calls : List ToolCall)
  | err (message : String)

/-- The `for tc in response.tool_calls` loop: execute each call, and after
each one return `task.result or "Task completed."` as soon as the task is
terminal.  `.inl` = returned from `think`, `.inr` = loop over. -/
def process_calls (assistant_text : String) (now : Nat) :
    List ToolCall → ExecState → (String × ExecState) ⊕ ExecState
  | [], st => .inr st
  | tc :: rest, st =>
    let r := execute_tool tc assistant_text st now
    if r.2.task.is_terminal then .inl (py_or r.2.task.result "Task completed.", r.2)
    else process_calls assistant_text now rest r.2

/-- How a `think` run ended (instrumentation only: which exit path of the
Python function was taken). -/
inductive ExitTag
  | budget
  | no_tool_calls
  | llm_error
  | reported
  deriving DecidableEq, Repr

/-- The value of a finished `think` run: the returned string, the final task,
created subtasks, the tracked `best_assistant_text`, the rejection counter,
and the exit path taken. -/
structure ThinkOut where
  ret : String
  task : Task
  subtasks : List Task
  best : String
  rejections : Nat
  exit_kind : ExitTag
  deriving Repr

/-- The iteration loop of `Agent.think`, at iteration `i` with `fuel`
iterations of the `range(max_iterations)` budget left, the current
`best_assistant_text` and state.  Fuel 0 is the fall-through salvage code
after the `for` loop: a best text of at least 300 characters completes the
task with it (registering an artifact; the markdown export is a collaborator
effect), anything less fails the task. -/
def think_go (script : Nat → LLMStep) (now : Nat) :
    Nat → Nat → String → ExecState → ThinkOut
  | 0, _, best, st =>
    if best ≠ "" ∧ 300 ≤ best.length then
      { ret := best
        task := (st.task.complete (some best) now).register_artifact "result" "text" (some best)
        subtasks := st.subtasks, best := best, rejections := st.rejections,
        exit_kind := .budget }
    else
      { ret := "Failed: exceeded maximum iterations."
        task := st.task.fail (some "Exceeded maximum iterations without completing.") now
        subtasks := st.subtasks, best := best, rejections := st.rejections,
        exit_kind := .budget }
  | fuel + 1, i, best, st =>
    match script i with
    | .err e =>
      { ret := "Error: " ++ e, task := st.task.fail (some e) now,
        subtasks := st.subtasks, best := best, rejections := st.rejections,
        exit_kind := .llm_error }
    | .ok content tool_calls =>
      let best := if content ≠ "" ∧ best.length < content.length then content else best
      match tool_calls with
      | [] =>
        let result := if content = "" then "No result produced." else content
        { ret := result, task := st.task.complete (some result) now,
          subtasks := st.subtasks, best := best, rejections := st.rejections,
          exit_kind := .no_tool_calls }
      | tc :: rest =>
        match process_calls best now (tc :: rest) st with
        | .inl (ret, st') =>
          { ret := ret, task := st'.task, subtasks := st'.subtasks, best := best,
            rejections := st'.rejections, exit_kind := .reported }
        | .inr st' => think_go script now fuel (i + 1) best st'

/-- `Agent.think` for an agent with a configured provider: start the task,
then loop.  (With no provider the function fails the task immediately; no
claim concerns that path.) -/
def Agent.think (script : Nat → LLMStep) (task : Task) (max_iterations now : Nat) : ThinkOut :=
  think_go script now max_iterations 0 ""
    { task := task.start now, rejections := 0, subtasks := [] }

/-- The value of `best_assistant_text` after running `fuel` more iterations
from iteration `i` with current value `b`: fold of the per-iteration
keep-the-longest update over the script. -/
def best_from (script : Nat → LLMStep) : Nat → String → Nat → String
  | _, b, 0 => b
  | i, b, fuel + 1 =>
    match script i with
    | .ok content _ =>
      best_from script (i + 1) (if content ≠ "" ∧ b.length < content.length then content else b) fuel
    | .err _ => best_from script (i + 1) b fuel

/-- The longest assistant text over a whole `max_iterations`-long transcript. -/
def best_text (script : Nat → LLMStep) (max_iterations : Nat) : String :=
  best_from script 0 "" max_iterations

/-! ## Verified properties -/

/-! ### C1 — Task terminality -/

/-- Claim C1 as stated is false: the Task mutators are unguarded.  On a task
completed with result "first result", a subsequent `start` re-enters
IN_PROGRESS (so `is_terminal` is not true forever after), and a subsequent
`complete` overwrites the result of the terminal task. -/
theorem C1_counterexample :
    ((Task.create "t1" "ship the feature" none 0 none 0).complete
        (some "first result") 1).is_terminal = true ∧
    (((Task.create "t1" "ship the feature" none 0 none 0).complete
        (some "first result") 1).start 2).is_terminal = false ∧
    (((Task.create "t1" "ship the feature" none 0 none 0).complete
        (some "first result") 1).start 2).status = TaskStatus.in_progress ∧
    (((Task.create "t1" "ship the feature" none 0 none 0).complete
        (some "first result") 1).complete (some "second result") 3).result =
      some "second result" ∧
    some "second result" ≠ some "first result" := by
  decide

/-- Claim C1, amended: `is_terminal` is false from creation for as long as
only non-completing operations (`assign`, `start`) are applied, and each of
`complete`/`fail` makes it true at once; but the mutators are unguarded, so
terminal status and the result are stable only while no further mutator is
called (a later `start`/`assign` re-enters a non-terminal status and a later
`complete`/`fail` overwrites the result). -/
theorem C1_terminality_amended :
    (∀ (id desc : String) (assignee : Option String) (priority : Int)
        (parent : Option String) (now : Nat) (ops : List TaskOp),
        (∀ op ∈ ops, op.is_completing = false) →
        ((Task.create id desc assignee priority parent now).run_ops ops).is_terminal = false) ∧
    (∀ (t : Task) (r : Option String) (now : Nat),
        (t.complete r now).is_terminal = true ∧ (t.fail r now).is_terminal = true) := by
  constructor
  · intro id desc assignee priority parent now ops hops
    apply run_ops_nonterminal ops _ _ hops
    cases assignee <;> simp [Task.create, Task.is_terminal] <;> decide
  · intro t r now
    constructor <;> simp [Task.complete, Task.fail, Task.is_terminal] <;> decide

/-- Witness for C1's amended theorem at concrete inputs. -/
theorem C1_witness :
    ((Task.create "t2" "draft copy" none 0 none 0).run_ops
        [.assign "Ann" 1, .start 2]).is_terminal = false ∧
    ((Task.create "t2" "draft copy" none 0 none 0).complete (some "r") 3).is_terminal = true := by
  exact ⟨C1_terminality_amended.1 "t2" "draft copy" none 0 none 0
          [.assign "Ann" 1, .start 2] (by decide),
        (C1_terminality_amended.2 (Task.create "t2" "draft copy" none 0 none 0) (some "r") 3).1⟩

/-! ### C6 — pricing lookup in `estimate_cost` -/

/-- Claim C6 as stated is false: for "gpt-4o-mini-2024-07-18" (no exact
match), the longest matching key is "gpt-4o-mini" ($0.15/1M input), but the
code returns $2.50/1M — the price of "gpt-4o", the FIRST key in insertion
order of which the model name is an extension. -/
theorem C6_counterexample :
    estimate_cost DEFAULT_PRICING "gpt-4o-mini-2024-07-18" 1000000 0 = 5 / 2 ∧
    estimate_cost_longest_key DEFAULT_PRICING "gpt-4o-mini-2024-07-18" 1000000 0 = 3 / 20 ∧
    (5 / 2 : ℚ) ≠ 3 / 20 := by
  refine ⟨?_, ?_, by norm_num⟩
  · simp [estimate_cost, DEFAULT_PRICING, dict_get, first_startswith_entry, str_startswith]
    norm_num
  · simp [estimate_cost_longest_key, DEFAULT_PRICING, dict_get, str_startswith,
      longest_startswith_entry, String.length]
    norm_num

lemma dict_get_eq_none (pricing : List (String × ℚ × ℚ)) (model : String)
    (h : ∀ e ∈ pricing, e.1 ≠ model) : dict_get model pricing = none := by
  induction pricing with
  | nil => rfl
  | cons kv rest ih =>
    have hk : kv.1 ≠ model := h kv (by simp)
    simp only [dict_get, if_neg hk]
    exact ih (fun e he => h e (by simp [he]))

lemma dict_get_of_mem (pricing : List (String × ℚ × ℚ)) (model : String) (p : ℚ × ℚ)
    (hnd : (pricing.map Prod.fst).Nodup) (hm : (model, p) ∈ pricing) :
    dict_get model pricing = some p := by
  induction pricing with
  | nil => simp at hm
  | cons kv rest ih =>
    rcases List.mem_cons.mp hm with heq | hmem
    · subst heq
      simp [dict_get]
    · have hk : kv.1 ≠ model := by
        intro hkm
        have : model ∈ rest.map Prod.fst := by
          exact List.mem_map.mpr ⟨(model, p), hmem, rfl⟩
        simp only [List.map_cons, List.nodup_cons] at hnd
        exact hnd.1 (hkm ▸ this)
      simp only [dict_get, if_neg hk]
      exact ih (by simp only [List.map_cons, List.nodup_cons] at hnd; exact hnd.2) hmem

lemma first_startswith_entry_append_none (l1 l2 : List (String × ℚ × ℚ)) (model : String)
    (h : ∀ e ∈ l1, str_startswith model e.1 = false) :
    first_startswith_entry model (l1 ++ l2) = first_startswith_entry model l2 := by
  induction l1 with
  | nil => rfl
  | cons kv rest ih =>
    have hk : str_startswith model kv.1 = false := h kv (by simp)
    simp only [List.cons_append, first_startswith_entry, hk]
    simp only [Bool.false_eq_true, if_false]
    exact ih (fun e he => h e (by simp [he]))

lemma first_startswith_entry_eq_none (l : List (String × ℚ × ℚ)) (model : String)
    (h : ∀ e ∈ l, str_startswith model e.1 = false) :
    first_startswith_entry model l = none := by
  have := first_startswith_entry_append_none l [] model h
  simpa using this

/-- Claim C6, amended: `estimate_cost` uses the exact pricing-table entry
when the model name is a key; otherwise it uses the FIRST entry in the
table's insertion order whose key the model name extends (not the longest
such key); with no exact or extending key it returns $0.00 (and, being a
total function, never raises). -/
theorem C6_pricing_lookup_amended :
    (∀ (pricing : List (String × ℚ × ℚ)) (model : String) (i o : Nat) (p : ℚ × ℚ),
        (pricing.map Prod.fst).Nodup → (model, p) ∈ pricing →
        estimate_cost pricing model i o = (i * p.1 + o * p.2) / 1000000) ∧
    (∀ (l1 l2 : List (String × ℚ × ℚ)) (k : String) (p : ℚ × ℚ) (model : String) (i o : Nat),
        (∀ e ∈ l1 ++ (k, p) :: l2, e.1 ≠ model) →
        (∀ e ∈ l1, str_startswith model e.1 = false) →
        str_startswith model k = true →
        estimate_cost (l1 ++ (k, p) :: l2) model i o = (i * p.1 + o * p.2) / 1000000) ∧
    (∀ (pricing : List (String × ℚ × ℚ)) (model : String) (i o : Nat),
        (∀ e ∈ pricing, e.1 ≠ model ∧ str_startswith model e.1 = false) →
        estimate_cost pricing model i o = 0) := by
  refine ⟨?_, ?_, ?_⟩
  · intro pricing model i o p hnd hm
    simp [estimate_cost, dict_get_of_mem pricing model p hnd hm]
  · intro l1 l2 k p model i o hexact hsw hk
    rw [estimate_cost, dict_get_eq_none _ _ hexact,
      first_startswith_entry_append_none l1 _ model hsw]
    simp [first_startswith_entry, hk]
  · intro pricing model i o h
    rw [estimate_cost, dict_get_eq_none _ _ (fun e he => (h e he).1),
      first_startswith_entry_eq_none _ _ (fun e he => (h e he).2)]

/-- Witness for C6's amended theorem: the exact-match case on "gpt-4o", the
first-extending-key case on "gpt-4o-mini-2024-07-18" (whose chosen entry is
"gpt-4o", preceded by the three claude keys that do not match), and the
unknown-model case on "mystery-model". -/
theorem C6_witness :
    estimate_cost DEFAULT_PRICING "gpt-4o" 2 4 = (2 * (2.50 : ℚ) + 4 * 10.00) / 1000000 ∧
    estimate_cost
      ([("claude-sonnet-4-5-20250929", 3.00, 15.00),
        ("claude-opus-4-6", 15.00, 75.00),
        ("claude-haiku-4-5-20251001", 0.80, 4.00)] ++
        ("gpt-4o", ((2.50 : ℚ), (10.00 : ℚ))) ::
        [("gpt-4o-mini", 0.15, 0.60),
         ("gpt-4-turbo", 10.00, 30.00),
         ("gpt-3.5-turbo", 0.50, 1.50)]) "gpt-4o-mini-2024-07-18" 3 5 =
      (3 * (2.50 : ℚ) + 5 * 10.00) / 1000000 ∧
    estimate_cost DEFAULT_PRICING "mystery-model" 9 9 = 0 := by
  refine ⟨?_, ?_, ?_⟩
  · exact C6_pricing_lookup_amended.1 DEFAULT_PRICING "gpt-4o" 2 4 (2.50, 10.00)
      (by simp [DEFAULT_PRICING]) (by simp [DEFAULT_PRICING])
  · exact C6_pricing_lookup_amended.2.1 _ _ "gpt-4o" (2.50, 10.00)
      "gpt-4o-mini-2024-07-18" 3 5 (by decide) (by decide) (by decide)
  · exact C6_pricing_lookup_amended.2.2 DEFAULT_PRICING "mystery-model" 9 9 (by decide)

/-! ### C7 — CostTracker aggregation -/

/-- Claim C7 as stated is false because `summary()` rounds: after recording
2 input tokens of "gpt-4o-mini" for agent "a" and again for agent "b"
(each call costing $0.0000003), `summary().total_cost_usd` is the rounded
$0.000001 while the sum of `estimate_cost` over the same inputs is
$0.0000006, and the `by_agent` values (each rounded to $0.000000) sum to 0,
reconciling with neither. -/
theorem C7_counterexample :
    ((CostTracker.init.record "a" "gpt-4o-mini" 2 0).record "b" "gpt-4o-mini" 2 0).summary_total_cost_usd
        = 1 / 1000000 ∧
    estimate_cost DEFAULT_PRICING "gpt-4o-mini" 2 0 +
        estimate_cost DEFAULT_PRICING "gpt-4o-mini" 2 0 = 3 / 5000000 ∧
    (1 / 1000000 : ℚ) ≠ 3 / 5000000 ∧
    ((((CostTracker.init.record "a" "gpt-4o-mini" 2 0).record "b" "gpt-4o-mini" 2 0).by_agent.map
        Prod.snd).sum) = 0 ∧
    (0 : ℚ) ≠ 1 / 1000000 ∧ (0 : ℚ) ≠ 3 / 5000000 := by
  refine ⟨?_, ?_, by norm_num, ?_, by norm_num, by norm_num⟩ <;>
    simp [CostTracker.init, CostTracker.record, CostTracker.summary_total_cost_usd,
      CostTracker.by_agent, accum_by, dict_add, sum_costs,
      estimate_cost, DEFAULT_PRICING, dict_get, first_startswith_entry, str_startswith] <;>
    norm_num [round6, roundHalfEven, floorQ]

/-- The record a `record(agent, model, i, o)` call appends, when the pricing
table is `pricing`. -/
def mk_record (pricing : List (String × ℚ × ℚ)) (c : String × String × Nat × Nat) :
    UsageRecord :=
  { agent := c.1, model := c.2.1, input_tokens := c.2.2.1, output_tokens := c.2.2.2,
    cost_usd := estimate_cost pricing c.2.1 c.2.2.1 c.2.2.2 }

lemma record_all_spec (calls : List (String × String × Nat × Nat)) :
    ∀ ct : CostTracker,
      (ct.record_all calls).pricing = ct.pricing ∧
      (ct.record_all calls).records = ct.records ++ calls.map (mk_record ct.pricing) ∧
      (ct.record_all calls).total_cost_usd =
        ct.total_cost_usd +
          (calls.map (fun c => estimate_cost ct.pricing c.2.1 c.2.2.1 c.2.2.2)).sum := by
  induction calls with
  | nil => intro ct; simp [CostTracker.record_all]
  | cons c rest ih =>
    intro ct
    have hstep : CostTracker.record_all ct (c :: rest) =
        CostTracker.record_all (ct.record c.1 c.2.1 c.2.2.1 c.2.2.2) rest := rfl
    obtain ⟨hp, hr, ht⟩ := ih (ct.record c.1 c.2.1 c.2.2.1 c.2.2.2)
    refine ⟨?_, ?_, ?_⟩
    · rw [hstep, hp]; rfl
    · rw [hstep, hr]
      simp [CostTracker.record, mk_record]
    · rw [hstep, ht]
      simp [CostTracker.record]
      ring

lemma dict_add_snd_sum (acc : List (String × ℚ)) (k : String) (c : ℚ) :
    ((dict_add acc k c).map Prod.snd).sum = (acc.map Prod.snd).sum + c := by
  induction acc with
  | nil => simp [dict_add]
  | cons kv rest ih =>
    by_cases h : kv.1 = k
    · simp [dict_add, h]
      ring
    · simp [dict_add, h, ih]
      ring

lemma accum_by_foldl_sum (key : UsageRecord → String) (rs : List UsageRecord) :
    ∀ acc : List (String × ℚ),
      (((rs.foldl (fun a r => dict_add a (key r) r.cost_usd) acc).map Prod.snd).sum) =
        (acc.map Prod.snd).sum + sum_costs rs := by
  induction rs with
  | nil => intro acc; simp [sum_costs]
  | cons r rest ih =>
    intro acc
    simp only [List.foldl_cons]
    rw [ih (dict_add acc (key r) r.cost_usd), dict_add_snd_sum]
    simp [sum_costs]
    ring

/-- The per-key roll-up reconciles exactly with the flat cost sum. -/
lemma accum_by_snd_sum (rs : List UsageRecord) (key : UsageRecord → String) :
    ((accum_by rs key).map Prod.snd).sum = sum_costs rs := by
  have := accum_by_foldl_sum key rs []
  simpa [accum_by] using this

/-- Claim C7, amended: for every sequence of `record` calls on a fresh
tracker, the running total `_total_cost_usd` equals the exact sum of
`estimate_cost` over the same inputs, and `summary().total_cost_usd` is that
sum rounded to 6 decimals; the per-agent and per-model roll-ups reconcile
with the exact total BEFORE their final per-value rounding (after rounding
they agree only up to rounding error, per the counterexample). -/
theorem C7_cost_aggregation_amended (calls : List (String × String × Nat × Nat)) :
    (CostTracker.init.record_all calls).total_cost_usd =
        (calls.map (fun c => estimate_cost DEFAULT_PRICING c.2.1 c.2.2.1 c.2.2.2)).sum ∧
    (CostTracker.init.record_all calls).summary_total_cost_usd =
        round6 ((calls.map (fun c => estimate_cost DEFAULT_PRICING c.2.1 c.2.2.1 c.2.2.2)).sum) ∧
    (((CostTracker.init.record_all calls).by_agent_exact.map Prod.snd).sum =
        (CostTracker.init.record_all calls).total_cost_usd) ∧
    (((CostTracker.init.record_all calls).by_model_exact.map Prod.snd).sum =
        (CostTracker.init.record_all calls).total_cost_usd) := by
  obtain ⟨hp, hr, ht⟩ := record_all_spec calls CostTracker.init
  have htot : (CostTracker.init.record_all calls).total_cost_usd =
      (calls.map (fun c => estimate_cost DEFAULT_PRICING c.2.1 c.2.2.1 c.2.2.2)).sum := by
    rw [ht]; simp [CostTracker.init]
  have hsum : sum_costs (CostTracker.init.record_all calls).records =
      (calls.map (fun c => estimate_cost DEFAULT_PRICING c.2.1 c.2.2.1 c.2.2.2)).sum := by
    rw [hr]
    simp only [CostTracker.init, List.nil_append, sum_costs, List.map_map]
    rfl
  refine ⟨htot, ?_, ?_, ?_⟩
  · rw [CostTracker.summary_total_cost_usd, htot]
  · rw [CostTracker.by_agent_exact, accum_by_snd_sum, hsum, htot]
  · rw [CostTracker.by_model_exact, accum_by_snd_sum, hsum, htot]

/-! ### C5 / C9 — delegation resolution -/

/-- The scan of `_handle_delegation` equals: find the most recent (first in
the reversed window) message that names the subtask id AND whose target role
resolves to a live agent; assign to that agent, else fail.  In particular a
matching message whose role has no live agent is skipped in favour of an
OLDER message. -/
lemma delegate_scan_eq (agents : List AgentRec) (sub : Task) (now : Nat) :
    ∀ msgs : List BusMsg,
      delegate_scan agents sub now msgs =
        match msgs.find? (delegate_viable agents sub.id) with
        | some m => (sub.assign ((delegate_target agents m).getD "") now, delegate_target agents m)
        | none => (sub.fail (some "No agent available for delegation.") now, none)
  | [] => by simp [delegate_scan, List.find?]
  | m :: rest => by
    rcases m with ⟨topic, content⟩
    rcases content with ⟨tid, toRole⟩ | raw
    · by_cases hid : tid = some sub.id
      · subst hid
        rcases toRole with _ | r
        · have hv : delegate_viable agents sub.id ⟨topic, .json (some sub.id) none⟩ = false := by
            simp [delegate_viable, delegate_target]
          simp only [delegate_scan, List.find?, hv, if_pos rfl]
          simpa using delegate_scan_eq agents sub now rest
        · cases ha : get_agent_by_role agents r with
          | none =>
            have hv : delegate_viable agents sub.id ⟨topic, .json (some sub.id) (some r)⟩ = false := by
              simp [delegate_viable, delegate_target, ha]
            simp only [delegate_scan, List.find?, hv, if_pos rfl, ha]
            simpa using delegate_scan_eq agents sub now rest
          | some a =>
            have hv : delegate_viable agents sub.id ⟨topic, .json (some sub.id) (some r)⟩ = true := by
              simp [delegate_viable, delegate_target, ha, matches_id]
            simp only [delegate_scan, List.find?, hv, if_pos rfl, ha]
            simp [delegate_target, ha]
      · have hv : delegate_viable agents sub.id ⟨topic, .json tid toRole⟩ = false := by
          simp [delegate_viable, matches_id, hid]
        simp only [delegate_scan, List.find?, hv, if_neg hid]
        simpa using delegate_scan_eq agents sub now rest
    · have hv : delegate_viable agents sub.id ⟨topic, .not_json raw⟩ = false := by
        simp [delegate_viable, matches_id]
      simp only [delegate_scan, List.find?, hv]
      simpa using delegate_scan_eq agents sub now rest

/-- Claim C5 as stated is false: with two `task.delegate` messages for
subtask "X" — the more recent targeting role "r1" (no live agent), the older
targeting role "r2" (live agent "Bob") — resolution assigns the subtask to
"Bob" following the OLDER message, not the most recently published one. -/
theorem C5_counterexample :
    (handle_delegation
        [⟨"task.delegate", .json (some "X") (some "r2")⟩,
         ⟨"task.delegate", .json (some "X") (some "r1")⟩]
        [⟨"Bob", "r2"⟩]
        (Task.create "X" "analyze the market" none 0 (some "p0") 0) 5).2 = some "Bob" ∧
    (handle_delegation
        [⟨"task.delegate", .json (some "X") (some "r2")⟩,
         ⟨"task.delegate", .json (some "X") (some "r1")⟩]
        [⟨"Bob", "r2"⟩]
        (Task.create "X" "analyze the market" none 0 (some "p0") 0) 5).1.assignee = some "Bob" ∧
    ((get_history
        [⟨"task.delegate", .json (some "X") (some "r2")⟩,
         ⟨"task.delegate", .json (some "X") (some "r1")⟩] 20 (some "task.delegate")).reverse).find?
        (matches_id "X") = some ⟨"task.delegate", .json (some "X") (some "r1")⟩ ∧
    get_agent_by_role [⟨"Bob", "r2"⟩] "r1" = none ∧
    (AgentRec.mk "Bob" "r2").role ≠ "r1" := by
  decide

/-- Claim C5, amended: resolution scans the last 20 `task.delegate` messages
newest-first and assigns the subtask to the first live agent with the target
role of the most recent matching message WHOSE ROLE RESOLVES to a live agent;
matching messages that do not parse, lack `to_role`, or name a role with no
live agent are skipped in favour of older ones, and if none is viable the
subtask fails. -/
theorem C5_delegation_latest_viable (history : List BusMsg) (agents : List AgentRec)
    (sub : Task) (now : Nat) :
    handle_delegation history agents sub now =
      match ((get_history history 20 (some "task.delegate")).reverse).find?
          (delegate_viable agents sub.id) with
      | some m => (sub.assign ((delegate_target agents m).getD "") now, delegate_target agents m)
      | none => (sub.fail (some "No agent available for delegation.") now, none) := by
  rw [handle_delegation]
  exact delegate_scan_eq agents sub now _

/-- Claim C9: if no message among the last 20 `task.delegate` bus messages
names the subtask id — even when an older matching message with a resolvable
live role exists in the full history — the subtask is FAILED with
"No agent available for delegation.". -/
theorem C9_delegation_window (history : List BusMsg) (agents : List AgentRec)
    (sub : Task) (now : Nat)
    (hwindow : ∀ m ∈ get_history history 20 (some "task.delegate"),
        matches_id sub.id m = false)
    (_holder : ∃ m ∈ history, m.topic = "task.delegate" ∧ matches_id sub.id m = true ∧
        (delegate_target agents m).isSome = true) :
    handle_delegation history agents sub now =
      (sub.fail (some "No agent available for delegation.") now, none) ∧
    (handle_delegation history agents sub now).1.status = TaskStatus.failed := by
  have hfind : ((get_history history 20 (some "task.delegate")).reverse).find?
      (delegate_viable agents sub.id) = none := by
    rw [List.find?_eq_none]
    intro m hm
    have hm' : m ∈ get_history history 20 (some "task.delegate") := List.mem_reverse.mp hm
    simp [delegate_viable, hwindow m hm']
  have h1 : handle_delegation history agents sub now =
      (sub.fail (some "No agent available for delegation.") now, none) := by
    rw [handle_delegation, delegate_scan_eq, hfind]
  exact ⟨h1, by rw [h1]; rfl⟩

/-- Witness for C9: a history of 21 delegation messages where only the
oldest names subtask "X" (with live agent "Ann" for its role "r"): resolution
fails the subtask although a matching message and a live agent exist. -/
theorem C9_witness :
    (handle_delegation
        (⟨"task.delegate", .json (some "X") (some "r")⟩ ::
          List.replicate 20 ⟨"task.delegate", .json (some "Y") (some "r")⟩)
        [⟨"Ann", "r"⟩]
        (Task.create "X" "research pricing" none 0 (some "p0") 0) 7).1.status =
      TaskStatus.failed := by
  exact (C9_delegation_window
    (⟨"task.delegate", .json (some "X") (some "r")⟩ ::
      List.replicate 20 ⟨"task.delegate", .json (some "Y") (some "r")⟩)
    [⟨"Ann", "r"⟩]
    (Task.create "X" "research pricing" none 0 (some "p0") 0) 7
    (by decide)
    ⟨⟨"task.delegate", .json (some "X") (some "r")⟩, by simp, by decide⟩).2

/-! ### C4 — cancellation of the goal loop -/

/-- Claim C4 as stated is false: if `request_stop()` arrives during wave
execution of a cycle whose CEO review then reports DONE, the loop exits with
`completed`, not `cancelled` (the review still runs after the wave loop
breaks; the stop flag is only re-checked at the next cycle top). -/
theorem C4_counterexample :
    run_goal_loop (fun _ => ⟨false, false, false, false, true, true⟩) 1 = .completed ∧
    GoalStatus.completed ≠ GoalStatus.cancelled := by
  decide

/-- Claim C4, amended: a stop request is honoured at the next cycle-top
check, so no new cycle starts after it — any cycle entered with the stop
flag set ends the loop with `cancelled` at once; and a stop request arriving
during wave execution yields final status `cancelled` PROVIDED the current
cycle's review does not report DONE and the cycle is not the last; a DONE
review yields `completed` and a non-DONE review on the last cycle yields
`failed`. -/
theorem C4_cancellation_amended :
    (∀ (env : Nat → CycleEnv) (fuel c : Nat),
        goal_cycles env (fuel + 1) c true = .cancelled) ∧
    (∀ (env : Nat → CycleEnv) (fuel c : Nat),
        (env c).stop_before_top = false → (env c).time_limit = false →
        (env c).task_limit = false → (env c).cost_limit = false →
        (env c).stop_during_waves = true → (env c).review_done = false →
        goal_cycles env (fuel + 2) c false = .cancelled) ∧
    (∀ (env : Nat → CycleEnv) (fuel c : Nat),
        (env c).stop_before_top = false → (env c).time_limit = false →
        (env c).task_limit = false → (env c).cost_limit = false →
        (env c).review_done = true →
        goal_cycles env (fuel + 1) c false = .completed) ∧
    (∀ (env : Nat → CycleEnv) (c : Nat),
        (env c).stop_before_top = false → (env c).time_limit = false →
        (env c).task_limit = false → (env c).cost_limit = false →
        (env c).review_done = false →
        goal_cycles env 1 c false = .failed) := by
  refine ⟨?_, ?_, ?_, ?_⟩
  · intro env fuel c
    simp [goal_cycles]
  · intro env fuel c h1 h2 h3 h4 h5 h6
    simp [goal_cycles, h1, h2, h3, h4, h5, h6]
  · intro env fuel c h1 h2 h3 h4 h5
    simp [goal_cycles, h1, h2, h3, h4, h5]
  · intro env c h1 h2 h3 h4 h5
    simp [goal_cycles, h1, h2, h3, h4, h5]

/-- Witness for C4's amended theorem at concrete environments: a cycle
entered with the stop flag set cancels; a mid-wave stop with a non-DONE
review on a non-final cycle cancels; a mid-wave stop with a DONE review
completes; a non-DONE review on the last cycle fails. -/
theorem C4_witness :
    goal_cycles (fun _ => ⟨false, false, false, false, false, false⟩) 1 0 true = .cancelled ∧
    goal_cycles (fun _ => ⟨false, false, false, false, true, false⟩) 2 0 false = .cancelled ∧
    goal_cycles (fun _ => ⟨false, false, false, false, true, true⟩) 1 0 false = .completed ∧
    goal_cycles (fun _ => ⟨false, false, false, false, true, false⟩) 1 0 false = .failed := by
  exact ⟨C4_cancellation_amended.1 _ 0 0,
         C4_cancellation_amended.2.1 _ 0 0 rfl rfl rfl rfl rfl rfl,
         C4_cancellation_amended.2.2.1 _ 0 0 rfl rfl rfl rfl rfl,
         C4_cancellation_amended.2.2.2 _ 0 rfl rfl rfl rfl rfl⟩

/-! ### C8 — `run_goal` with no CEO -/

/-- Claim C8 as stated is false: with no hired CEO, `run_goal` does raise
before creating any task, but NOT before mutating state — by the time of the
`ValueError` it has set `_running = True` and INSERTed the goal row with
status `active` into the database. -/
theorem C8_counterexample :
    (run_goal_start [] ⟨false, true, [], []⟩ "grow revenue" "g1").2 =
      some "No CEO agent found. Hire a CEO first: agent-company-ai hire ceo" ∧
    (run_goal_start [] ⟨false, true, [], []⟩ "grow revenue" "g1").1.db_goals =
      [("g1", "grow revenue", "active")] ∧
    [("g1", "grow revenue", "active")] ≠ ([] : List (String × String × String)) ∧
    (run_goal_start [] ⟨false, true, [], []⟩ "grow revenue" "g1").1.running = true := by
  decide

/-- Claim C8, amended: if no hired agent has role "ceo", `run_goal` raises
`ValueError` before any task is created or any agent think-loop runs (the
task board is untouched) — but only after setting `_running = True`,
clearing `_stop_requested`, and persisting the goal row as `active`. -/
theorem C8_no_ceo_raises (agents : List AgentRec) (st : CompanyState)
    (goal goal_id : String)
    (h : get_agent_by_role agents "ceo" = none) :
    (run_goal_start agents st goal goal_id).2 =
      some "No CEO agent found. Hire a CEO first: agent-company-ai hire ceo" ∧
    (run_goal_start agents st goal goal_id).1.board = st.board ∧
    (run_goal_start agents st goal goal_id).1.db_goals =
      st.db_goals ++ [(goal_id, goal, "active")] ∧
    (run_goal_start agents st goal goal_id).1.running = true ∧
    (run_goal_start agents st goal goal_id).1.stop_requested = false := by
  simp [run_goal_start, h]

/-- Witness for C8 at a concrete company with one non-CEO agent. -/
theorem C8_witness :
    (run_goal_start [⟨"Dana", "developer"⟩] ⟨false, false, [], []⟩ "ship v1" "g2").2 =
      some "No CEO agent found. Hire a CEO first: agent-company-ai hire ceo" ∧
    (run_goal_start [⟨"Dana", "developer"⟩] ⟨false, false, [], []⟩ "ship v1" "g2").1.board = [] ∧
    (run_goal_start [⟨"Dana", "developer"⟩] ⟨false, false, [], []⟩ "ship v1" "g2").1.db_goals =
      [] ++ [("g2", "ship v1", "active")] ∧
    (run_goal_start [⟨"Dana", "developer"⟩] ⟨false, false, [], []⟩ "ship v1" "g2").1.running = true ∧
    (run_goal_start [⟨"Dana", "developer"⟩] ⟨false, false, [], []⟩ "ship v1" "g2").1.stop_requested
      = false := by
  exact C8_no_ceo_raises [⟨"Dana", "developer"⟩] ⟨false, false, [], []⟩ "ship v1" "g2" (by decide)

/-! ### C2 / C3 / C10 — the think loop and the `report_result` gate -/

lemma think_go_budget (script : Nat → LLMStep) (now : Nat) :
    ∀ (fuel i : Nat) (best : String) (st : ExecState),
      (think_go script now fuel i best st).exit_kind = .budget →
      (think_go script now fuel i best st).best = best_from script i best fuel ∧
      (300 ≤ (think_go script now fuel i best st).best.length →
        (think_go script now fuel i best st).task.status = .done ∧
        (think_go script now fuel i best st).task.result =
          some (think_go script now fuel i best st).best ∧
        (think_go script now fuel i best st).ret = (think_go script now fuel i best st).best) ∧
      ((think_go script now fuel i best st).best.length < 300 →
        (think_go script now fuel i best st).task.status = .failed ∧
        (think_go script now fuel i best st).task.result =
          some "Exceeded maximum iterations without completing." ∧
        (think_go script now fuel i best st).ret = "Failed: exceeded maximum iterations.") := by
  intro fuel
  induction fuel with
  | zero =>
    intro i best st _
    by_cases hc : best ≠ "" ∧ 300 ≤ best.length
    · refine ⟨by simp [think_go, if_pos hc, best_from], ?_, ?_⟩
      · intro _
        simp [think_go, if_pos hc, Task.complete, Task.register_artifact]
      · intro hlt
        have : (think_go script now 0 i best st).best = best := by
          simp [think_go, if_pos hc]
        rw [this] at hlt
        omega
    · have hlen : best.length < 300 := by
        by_cases hb : best = ""
        · subst hb; simp [String.length]
        · push_neg at hc
          have := hc hb
          omega
      refine ⟨by simp [think_go, if_neg hc, best_from], ?_, ?_⟩
      · intro hge
        have : (think_go script now 0 i best st).best = best := by
          simp [think_go, if_neg hc]
        rw [this] at hge
        omega
      · intro _
        simp [think_go, if_neg hc, Task.fail]
  | succ fuel ih =>
    intro i best st hexit
    cases hs : script i with
    | err e =>
      rw [show think_go script now (fuel + 1) i best st =
          { ret := "Error: " ++ e, task := st.task.fail (some e) now,
            subtasks := st.subtasks, best := best, rejections := st.rejections,
            exit_kind := .llm_error } from by rw [think_go, hs]] at hexit
      exact absurd hexit (by simp)
    | ok content tool_calls =>
      cases tool_calls with
      | nil =>
        rw [show think_go script now (fuel + 1) i best st =
            (let best' := if content ≠ "" ∧ best.length < content.length then content else best;
             let result := if content = "" then "No result produced." else content;
             { ret := result, task := st.task.complete (some result) now,
               subtasks := st.subtasks, best := best', rejections := st.rejections,
               exit_kind := .no_tool_calls }) from by rw [think_go, hs]] at hexit
        exact absurd hexit (by simp)
      | cons tc rest =>
        have hstep : think_go script now (fuel + 1) i best st =
            (match process_calls (if content ≠ "" ∧ best.length < content.length then content else best)
                now (tc :: rest) st with
             | .inl (ret, st') =>
               { ret := ret, task := st'.task, subtasks := st'.subtasks,
                 best := (if content ≠ "" ∧ best.length < content.length then content else best),
                 rejections := st'.rejections, exit_kind := .reported }
             | .inr st' =>
               think_go script now fuel (i + 1)
                 (if content ≠ "" ∧ best.length < content.length then content else best) st') := by
          rw [think_go, hs]
        cases hp : process_calls (if content ≠ "" ∧ best.length < content.length then content else best)
            now (tc :: rest) st with
        | inl pair =>
          rw [hstep, hp] at hexit
          exact absurd hexit (by simp)
        | inr st' =>
          rw [hstep, hp] at hexit ⊢
          have hbf : best_from script i best (fuel + 1) =
              best_from script (i + 1)
                (if content ≠ "" ∧ best.length < content.length then content else best) fuel := by
            rw [best_from, hs]
          rw [hbf]
          exact ih (i + 1) (if content ≠ "" ∧ best.length < content.length then content else best)
            st' hexit

/-- Claim C2: when `Agent.think` exhausts its iteration budget without a
terminal transition, the salvage path runs: if the longest assistant text
seen across the iterations is at least 300 characters the task ends DONE with
exactly that text as its result (never FAILED), and otherwise it ends FAILED
with the "Exceeded maximum iterations without completing." reason. -/
theorem C2_budget_salvage (script : Nat → LLMStep) (task : Task)
    (max_iterations now : Nat)
    (hbudget : (Agent.think script task max_iterations now).exit_kind = .budget) :
    (300 ≤ (best_text script max_iterations).length →
      (Agent.think script task max_iterations now).task.status = .done ∧
      (Agent.think script task max_iterations now).task.result =
        some (best_text script max_iterations) ∧
      (Agent.think script task max_iterations now).ret = best_text script max_iterations) ∧
    ((best_text script max_iterations).length < 300 →
      (Agent.think script task max_iterations now).task.status = .failed ∧
      (Agent.think script task max_iterations now).task.result =
        some "Exceeded maximum iterations without completing." ∧
      (Agent.think script task max_iterations now).ret =
        "Failed: exceeded maximum iterations.") := by
  have h := think_go_budget script now max_iterations 0 ""
    { task := task.start now, rejections := 0, subtasks := [] } hbudget
  have hbt : (Agent.think script task max_iterations now).best =
      best_text script max_iterations := h.1
  constructor
  · intro hge
    rw [← hbt] at hge
    have := h.2.1 hge
    rw [← hbt]
    exact this
  · intro hlt
    rw [← hbt] at hlt
    exact h.2.2 hlt

/-- Witness for C2 at a concrete run: a script whose one iteration produces
a 300-character assistant text and a non-terminal tool call, with
`max_iterations = 1`; the task ends DONE with that text. -/
theorem C2_witness :
    (Agent.think (fun _ => .ok ⟨List.replicate 300 'a'⟩ [.other "web_search" "ten results"])
        (Task.create "t3" "market analysis" (some "Alice") 0 none 0) 1 0).task.status =
      TaskStatus.done ∧
    (Agent.think (fun _ => .ok ⟨List.replicate 300 'a'⟩ [.other "web_search" "ten results"])
        (Task.create "t3" "market analysis" (some "Alice") 0 none 0) 1 0).task.result =
      some ⟨List.replicate 300 'a'⟩ := by
  have h := (C2_budget_salvage
      (fun _ => .ok ⟨List.replicate 300 'a'⟩ [.other "web_search" "ten results"])
      (Task.create "t3" "market analysis" (some "Alice") 0 none 0) 1 0 (by decide)).1
      (by decide)
  refine ⟨h.1, ?_⟩
  rw [h.2.1]
  decide

/-- The rejection message begins with "REJECTED". -/
lemma rejection_message_startswith (n : Nat) :
    str_startswith (rejection_message n) "REJECTED" = true := by
  have h : "REJECTED".data <+: (rejection_message n).data := by
    show "REJECTED".data <+:
      ("REJECTED: Your submission is only ".data ++ (toString n).data) ++
        rejection_message_tail.data
    exact List.IsPrefix.trans
      (by decide : ("REJECTED".data : List Char) <+: "REJECTED: Your submission is only ".data)
      ((List.prefix_append _ _).trans (List.prefix_append _ _))
  rw [str_startswith]
  exact List.isPrefixOf_iff_prefix.mpr h

/-- Claim C3: when `report_result` is called with status "done" and a result
that is still shorter than 300 stripped characters after the
assistant-text substitution, the first two such calls are rejected — the
tool-result begins with "REJECTED" and the task is untouched (hence still
non-terminal) — and the third is accepted, completing the task with the
substituted result. -/
theorem C3_short_report_rejection (result0 : Option String) (assistant : String)
    (st0 : ExecState) (n1 n2 n3 : Nat)
    (hshort : (str_strip (substitute_result (result0.getD "") assistant)).length < 300)
    (hrej : st0.rejections = 0)
    (hterm : st0.task.is_terminal = false) :
    str_startswith (report_seq result0 assistant st0 n1 n2 n3).1.1 "REJECTED" = true ∧
    (report_seq result0 assistant st0 n1 n2 n3).1.2.task = st0.task ∧
    (report_seq result0 assistant st0 n1 n2 n3).1.2.task.is_terminal = false ∧
    str_startswith (report_seq result0 assistant st0 n1 n2 n3).2.1.1 "REJECTED" = true ∧
    (report_seq result0 assistant st0 n1 n2 n3).2.1.2.task = st0.task ∧
    (report_seq result0 assistant st0 n1 n2 n3).2.1.2.task.is_terminal = false ∧
    (report_seq result0 assistant st0 n1 n2 n3).2.2.2.task.status = TaskStatus.done ∧
    (report_seq result0 assistant st0 n1 n2 n3).2.2.2.task.result =
      some (substitute_result (result0.getD "") assistant) := by
  have e1 : execute_tool (.report_result result0 (some "done")) assistant st0 n1 =
      (rejection_message (str_strip (substitute_result (result0.getD "") assistant)).length,
       { st0 with rejections := st0.rejections + 1 }) := by
    simp [execute_tool, hshort, hrej]
  have e2 : execute_tool (.report_result result0 (some "done")) assistant
      { st0 with rejections := st0.rejections + 1 } n2 =
      (rejection_message (str_strip (substitute_result (result0.getD "") assistant)).length,
       { st0 with rejections := st0.rejections + 1 + 1 }) := by
    simp [execute_tool, hshort, hrej]
  have e3 : execute_tool (.report_result result0 (some "done")) assistant
      { st0 with rejections := st0.rejections + 1 + 1 } n3 =
      ("Result reported: " ++ "done",
       { st0 with rejections := st0.rejections + 1 + 1,
                  task := (st0.task.complete
                    (some (substitute_result (result0.getD "") assistant)) n3).register_artifact
                    "result" "text"
                    (some (substitute_result (result0.getD "") assistant)) }) := by
    simp [execute_tool, hshort, hrej]
  have hseq : report_seq result0 assistant st0 n1 n2 n3 =
      ((rejection_message (str_strip (substitute_result (result0.getD "") assistant)).length,
        { st0 with rejections := st0.rejections + 1 }),
       (rejection_message (str_strip (substitute_result (result0.getD "") assistant)).length,
        { st0 with rejections := st0.rejections + 1 + 1 }),
       ("Result reported: " ++ "done",
        { st0 with rejections := st0.rejections + 1 + 1,
                   task := (st0.task.complete
                     (some (substitute_result (result0.getD "") assistant)) n3).register_artifact
                     "result" "text"
                     (some (substitute_result (result0.getD "") assistant)) })) := by
    rw [report_seq]
    rw [e1]
    simp only
    rw [e2]
    simp only
    rw [e3]
  rw [hseq]
  refine ⟨rejection_message_startswith _, rfl, hterm, rejection_message_startswith _, rfl,
    hterm, ?_, ?_⟩
  · simp [Task.complete, Task.register_artifact]
  · simp [Task.complete, Task.register_artifact]

/-- Witness for C3 at a concrete short report ("Done: plan written.", no
assistant text) on a fresh in-progress task. -/
theorem C3_witness :
    str_startswith (report_seq (some "Done: plan written.") ""
        { task := (Task.create "t4" "write strategy" (some "Bea") 0 none 0).start 1,
          rejections := 0, subtasks := [] } 2 3 4).1.1 "REJECTED" = true ∧
    (report_seq (some "Done: plan written.") ""
        { task := (Task.create "t4" "write strategy" (some "Bea") 0 none 0).start 1,
          rejections := 0, subtasks := [] } 2 3 4).2.2.2.task.status = TaskStatus.done := by
  have h := C3_short_report_rejection (some "Done: plan written.") ""
    { task := (Task.create "t4" "write strategy" (some "Bea") 0 none 0).start 1,
      rejections := 0, subtasks := [] } 2 3 4 (by decide) rfl (by decide)
  exact ⟨h.1, h.2.2.2.2.2.2.1⟩

/-- Claim C10: the rejection gate only guards status "done": a
`report_result` call with any other status immediately fails the task with
the (possibly substituted) result text as its reason, whatever the length,
the rejection budget, or the prior state. -/
theorem C10_non_done_report_fails (result0 : Option String) (status : String)
    (assistant : String) (st : ExecState) (now : Nat)
    (h : status ≠ "done") :
    execute_tool (.report_result result0 (some status)) assistant st now =
      ("Result reported: " ++ status,
       { st with
         task := st.task.fail (some (substitute_result (result0.getD "") assistant)) now }) := by
  simp [execute_tool, h]

/-- Witness for C10 at a concrete call with status "failed" and a long
result, zero rejections used. -/
theorem C10_witness :
    execute_tool (.report_result (some "Could not find the data.") (some "failed")) ""
        { task := (Task.create "t5" "collect data" (some "Cal") 0 none 0).start 1,
          rejections := 0, subtasks := [] } 2 =
      ("Result reported: " ++ "failed",
       { task :=
           ((Task.create "t5" "collect data" (some "Cal") 0 none 0).start 1).fail
             (some (substitute_result ((some "Could not find the data.").getD "") "")) 2,
         rejections := 0, subtasks := [] }) := by
  exact C10_non_done_report_fails (some "Could not find the data.") "failed" ""
    { task := (Task.create "t5" "collect data" (some "Cal") 0 none 0).start 1,
      rejections := 0, subtasks := [] } 2 (by decide)

end AgentCompany
